import Mathlib

/-!
Verification of the geometry-filtering logic of `geojson_processing/filtering.py`
(repository solivr/cadasters) against its natural-language specification.

The Python code is shallowly embedded: shapely geometry objects are modelled by
their two observable attributes (`is_valid : Bool` and `area : ℚ`), the
`shape()` constructor by an `Except` value (it either raises `ValueError` or
returns a shapely object), pandas dataframes by lists of rows carrying an
explicit index label, and the in-place column assignment of `filter_by_area`
by explicit state passing (the function returns the caller's frame after the
call together with its return value).
-/

/-- The observable part of a shapely geometry object: its validity flag
(`shapely_object.is_valid`) and its area (`s.area`). Python floats are
modelled by rationals. -/
structure ShapelyShape where
  is_valid : Bool
  area : ℚ
deriving DecidableEq, Repr

/-- The `geometry` field of a geojson Feature, as seen by `shape()`:
either the encoding is unreadable (`shape` raises `ValueError`) or it
constructs a shapely object. -/
inductive GeomField where
  | unreadable : GeomField
  | readable : ShapelyShape → GeomField
deriving DecidableEq, Repr

/-- The Python exception caught by `get_valid_shapes`. -/
inductive PyError where
  | valueError : PyError
deriving DecidableEq, Repr

/-- `shapely.geometry.shape(feature['geometry'])`: raises `ValueError` on an
unreadable encoding, otherwise returns the constructed shapely object. -/
def shape : GeomField → Except PyError ShapelyShape
  | GeomField.unreadable => Except.error PyError.valueError
  | GeomField.readable sh => Except.ok sh

/-- A geojson Feature: a `geometry` field plus arbitrary additional
attributes (kept abstract as key/value pairs, so that "retained unchanged"
is a non-trivial statement). -/
structure Feature where
  geometry : GeomField
  attrs : List (String × String)
deriving DecidableEq, Repr

/-- Diagnostics printed by `get_valid_shapes` (modelled as events rather
than formatted strings). -/
inductive PrintEvent where
  | shapeNotValid : Nat → Feature → PrintEvent
  | shapeNotReadable : Nat → Feature → PrintEvent
  | foundInvalid : Nat → PrintEvent
deriving DecidableEq, Repr

/-- The loop state of `get_valid_shapes`: the accumulators `valid_features`
and `invalid_count`, plus everything printed so far. -/
structure VState where
  valid_features : List Feature
  invalid_count : Nat
  printed : List PrintEvent
deriving DecidableEq, Repr

/-- One iteration of the `for feature in features` loop of
`get_valid_shapes`. -/
def get_valid_shapesStep (verbose : Bool) (st : VState) (feature : Feature) : VState :=
  match shape feature.geometry with
  | Except.ok shapely_object =>
      if shapely_object.is_valid then
        { st with valid_features := st.valid_features ++ [feature] }
      else
        { st with
          invalid_count := st.invalid_count + 1,
          printed := st.printed ++
            (if verbose then [PrintEvent.shapeNotValid (st.invalid_count + 1) feature] else []) }
  | Except.error _ =>
      { st with
        invalid_count := st.invalid_count + 1,
        printed := st.printed ++
          (if verbose then [PrintEvent.shapeNotReadable (st.invalid_count + 1) feature] else []) }

/-- The complete execution of `get_valid_shapes`: run the loop from the
initial state, then print the unconditional
`Found N invalid shapes` line. -/
def get_valid_shapesRun (features : List Feature) (verbose : Bool) : VState :=
  let st := features.foldl (get_valid_shapesStep verbose) ⟨[], 0, []⟩
  { st with printed := st.printed ++ [PrintEvent.foundInvalid st.invalid_count] }

/-- The value `get_valid_shapes` returns to its caller: only
`valid_features` (the invalid count is printed, not returned). -/
def get_valid_shapes (features : List Feature) (verbose : Bool) : List Feature :=
  (get_valid_shapesRun features verbose).valid_features

/-- The validity predicate a feature must pass to be retained: its geometry
field constructs a shapely object and that object satisfies `is_valid`. -/
def featureOk (f : Feature) : Bool :=
  match shape f.geometry with
  | Except.ok sh => sh.is_valid
  | Except.error _ => false

/-- A Python value as it can appear in the `ID` column of the annotated
dataframe: a finite float, the float NaN (for which `pd.isnull` holds),
an int, or a string. -/
inductive PyVal where
  | floatVal : ℚ → PyVal
  | nanVal : PyVal
  | intVal : Int → PyVal
  | strVal : String → PyVal
deriving DecidableEq, Repr

/-- Python `int()` on a float: truncation toward zero (on the rational
model, t-division of numerator by denominator). -/
def pyIntOfFloat (q : ℚ) : Int :=
  Int.tdiv q.num (q.den : Int)

/-- `_float2int(unit)`: a non-null float is coerced with `int(unit)`;
NaN (`pd.isnull`) and every non-float value pass through unchanged. -/
def _float2int (unit : PyVal) : PyVal :=
  match unit with
  | PyVal.floatVal q => PyVal.intVal (pyIntOfFloat q)
  | other => other

/-- Python `str()` on the values the pipeline can hold after `_float2int`.
The `floatVal` case is unreachable there (every non-null float has been
coerced to `intVal`); it is rendered as numerator-dot-zero when integral. -/
def pyStr : PyVal → String
  | PyVal.intVal n => toString n
  | PyVal.strVal s => s
  | PyVal.nanVal => "nan"
  | PyVal.floatVal q =>
      if q.den = 1 then toString q.num ++ ".0" else toString q.num ++ "." ++ toString q.den

/-- `re.sub(r"\D", "", s)`: strip every non-digit character. -/
def stripNonDigits (s : String) : String :=
  ⟨s.toList.filter Char.isDigit⟩

/-- The per-element effect on the `ID` column of the three normalization
statements of `clean_manually_annotated_parcels`:
`_float2int`, then `re.sub(r"\D", "", str(t))`, then
`.replace(quote-quote, np.nan)`. -/
def normalizeID (v : PyVal) : PyVal :=
  let v1 := _float2int v
  let s := stripNonDigits (pyStr v1)
  if s = "" then PyVal.nanVal else PyVal.strVal s

/-- A dataframe cell: numeric or textual. -/
inductive Cell where
  | num : ℚ → Cell
  | text : String → Cell
deriving DecidableEq, Repr

/-- A row of the geodataframe passed to `filter_by_area`: pandas index
label, the geometry-column value, and the remaining columns as key/value
pairs. -/
structure GeoRow where
  index : Nat
  geometry : ShapelyShape
  attrs : List (String × Cell)
deriving DecidableEq, Repr

/-- A (geo)dataframe: an ordered list of index-labelled rows. -/
structure GeoFrame where
  rows : List GeoRow
deriving DecidableEq, Repr

/-- Column assignment on a row's attribute list: overwrite the value under
key `k` when the column exists, otherwise append the new column. -/
def setCol (l : List (String × Cell)) (k : String) (v : Cell) : List (String × Cell) :=
  if l.any (fun p => p.1 == k) then
    l.map (fun p => if p.1 == k then (k, v) else p)
  else
    l ++ [(k, v)]

/-- The per-row effect of `geodataframe['area'] = geodataframe.geometry.apply(lambda s: s.area)`:
the row gains (or overwrites) an `area` cell holding its geometry's area. -/
def assignAreaCell (r : GeoRow) : GeoRow :=
  { r with attrs := setCol r.attrs "area" (Cell.num r.geometry.area) }

/-- `filter_by_area(geodataframe, min_area, max_area)`.
The column assignment mutates the caller's frame in place, so the embedding
returns both the caller's frame as it stands after the call (first
component) and the function's return value (second component). The two row
selections build new frames and do not touch the caller's object. -/
def filter_by_area (geodataframe : GeoFrame) (min_area max_area : ℚ) : GeoFrame × GeoFrame :=
  let gdf1 : GeoFrame := ⟨geodataframe.rows.map assignAreaCell⟩
  let gdf2 : GeoFrame := ⟨gdf1.rows.filter (fun r => decide (min_area < r.geometry.area))⟩
  let gdf3 : GeoFrame := ⟨gdf2.rows.filter (fun r => decide (r.geometry.area < max_area))⟩
  (gdf1, gdf3)

/-- Remove every cell of column `k` from a row's attribute list. -/
def eraseCol (k : String) (l : List (String × Cell)) : List (String × Cell) :=
  l.filter (fun p => p.1 != k)

/-- View of a row with the `area` column removed (used to state that the
`area` column is the only thing `filter_by_area` changes on its caller's
frame). -/
def eraseAreaCol (r : GeoRow) : GeoRow :=
  { r with attrs := eraseCol "area" r.attrs }

/-- A shapely geometry as returned by `shapely.wkt.loads` on the `WKT`
column: a multi-part object whose parts can be indexed. Indexing with
`[0]` yields `first`; any further parts (`rest`) are silently dropped by
the code. -/
structure MultiGeom where
  first : ShapelyShape
  rest : List ShapelyShape
deriving DecidableEq, Repr

/-- A row of the manually annotated geodataframe: pandas index label, the
four columns `clean_manually_annotated_parcels` keeps (`WKT`, `best_trans`,
`uuid`, `ID`) and the extra columns it projects away. The `WKT` column is
modelled by the multi-part geometry its text parses to. -/
structure AnnRow where
  index : Nat
  WKT : MultiGeom
  best_trans : String
  uuid : String
  ID : PyVal
  extras : List (String × Cell)
deriving DecidableEq, Repr

/-- The manually annotated geodataframe. -/
structure AnnFrame where
  rows : List AnnRow
deriving DecidableEq, Repr

/-- A row after the column manipulations of
`clean_manually_annotated_parcels`: extras and `WKT` dropped, a `geometry`
column, and the normalized `ID`. The pandas index label is untouched by
these steps. -/
structure CleanRow where
  index : Nat
  geometry : ShapelyShape
  best_trans : String
  uuid : String
  ID : PyVal
deriving DecidableEq, Repr

/-- The cleaned geodataframe returned by `clean_manually_annotated_parcels`. -/
structure CleanFrame where
  rows : List CleanRow
deriving DecidableEq, Repr

/-- The row-wise effect of the column steps of
`clean_manually_annotated_parcels`: keep only `[WKT, best_trans, uuid, ID]`
(extras dropped), set `geometry := shapely.wkt.loads(WKT)[0]` and drop
`WKT`, and normalize `ID` (`_float2int`, strip non-digits, empty → NaN). -/
def cleanRow (r : AnnRow) : CleanRow :=
  ⟨r.index, r.WKT.first, r.best_trans, r.uuid, normalizeID r.ID⟩

/-- `clean_manually_annotated_parcels(geodataframe_annotated)`: after the
column steps, the rows whose geometry fails `is_valid` form
`invalid_polygons`, and `.drop(index=invalid_polygons.index, axis=0)`
removes every row whose index label occurs among theirs. No index reset is
performed. -/
def clean_manually_annotated_parcels (geodataframe_annotated : AnnFrame) : CleanFrame :=
  let staged := geodataframe_annotated.rows.map cleanRow
  let invalid_polygons := staged.filter (fun r => !r.geometry.is_valid)
  let invalidIdx := invalid_polygons.map (fun r => r.index)
  ⟨staged.filter (fun r => !(invalidIdx.contains r.index))⟩

/-- The removed count printed by `clean_manually_annotated_parcels`
(`Removed N invalid polygons`). -/
def cleanRemovedCount (geodataframe_annotated : AnnFrame) : Nat :=
  ((geodataframe_annotated.rows.map cleanRow).filter (fun r => !r.geometry.is_valid)).length

/-- Concrete test data: a feature whose geometry constructs a valid shape. -/
def goodFeature : Feature :=
  ⟨GeomField.readable ⟨true, 1⟩, [("id", "a")]⟩

/-- Concrete test data: a feature whose geometry encoding is unreadable. -/
def badFeature : Feature :=
  ⟨GeomField.unreadable, [("id", "b")]⟩

/-- Concrete test data: a row whose geometry has area 2. -/
def rowArea2 : GeoRow :=
  ⟨0, ⟨true, 2⟩, []⟩

/-- Concrete test data: a row whose geometry has area 0. -/
def rowArea0 : GeoRow :=
  ⟨1, ⟨true, 0⟩, []⟩

/-- Concrete test data: a two-row geodataframe. -/
def frameC4 : GeoFrame :=
  ⟨[rowArea2, rowArea0]⟩

/-- Concrete test data: a one-row geodataframe without an `area` column. -/
def sampleGeoFrame : GeoFrame :=
  ⟨[rowArea2]⟩

/-- Concrete test data: an annotated row (index label 0) whose WKT parses
to an invalid first part. -/
def invalidAnnRow : AnnRow :=
  ⟨0, ⟨⟨false, 0⟩, []⟩, "t1", "u1", PyVal.strVal "7", []⟩

/-- Concrete test data: an annotated row (index label 1) whose WKT parses
to a valid first part. -/
def validAnnRow : AnnRow :=
  ⟨1, ⟨⟨true, 1⟩, []⟩, "t2", "u2", PyVal.strVal "8", []⟩

/-- Concrete test data: a two-row annotated geodataframe. -/
def sampleAnnFrame : AnnFrame :=
  ⟨[invalidAnnRow, validAnnRow]⟩

theorem foldl_step_valid_features (verbose : Bool) (l : List Feature) (st : VState) :
    (l.foldl (get_valid_shapesStep verbose) st).valid_features
      = st.valid_features ++ l.filter featureOk := by
  induction l generalizing st with
  | nil => simp
  | cons f t ih =>
    rw [List.foldl_cons, List.filter_cons, ih]
    cases h : shape f.geometry with
    | ok sh =>
      cases hv : sh.is_valid <;>
        simp [get_valid_shapesStep, featureOk, h, hv]
    | error e =>
      simp [get_valid_shapesStep, featureOk, h]

theorem foldl_step_invalid_count (verbose : Bool) (l : List Feature) (st : VState) :
    (l.foldl (get_valid_shapesStep verbose) st).invalid_count
      = st.invalid_count + l.countP (fun f => !featureOk f) := by
  induction l generalizing st with
  | nil => simp
  | cons f t ih =>
    rw [List.foldl_cons, List.countP_cons, ih]
    cases h : shape f.geometry with
    | ok sh =>
      cases hv : sh.is_valid
      all_goals simp [get_valid_shapesStep, featureOk, h, hv]
      all_goals omega
    | error e =>
      simp [get_valid_shapesStep, featureOk, h]
      omega

theorem get_valid_shapes_eq_filter (features : List Feature) (verbose : Bool) :
    get_valid_shapes features verbose = features.filter featureOk := by
  simp [get_valid_shapes, get_valid_shapesRun, foldl_step_valid_features]

theorem get_valid_shapesRun_invalid_count (features : List Feature) (verbose : Bool) :
    (get_valid_shapesRun features verbose).invalid_count
      = features.countP (fun f => !featureOk f) := by
  simp [get_valid_shapesRun, foldl_step_invalid_count]

theorem filter_ne_map_overwrite (l : List (String × Cell)) (k : String) (v : Cell) :
    (l.map (fun p => if p.1 == k then (k, v) else p)).filter (fun p => p.1 != k)
      = l.filter (fun p => p.1 != k) := by
  induction l with
  | nil => rfl
  | cons a t ih =>
    by_cases ha : a.1 = k
    · simp [List.map_cons, List.filter_cons, ha]
      simpa using ih
    · simp [List.map_cons, List.filter_cons, ha]
      simpa using ih

theorem eraseCol_setCol (l : List (String × Cell)) (k : String) (v : Cell) :
    eraseCol k (setCol l k v) = eraseCol k l := by
  unfold setCol eraseCol
  by_cases h : l.any (fun p => p.1 == k)
  · simp only [h, if_true]
    exact filter_ne_map_overwrite l k v
  · simp only [h, if_false]
    simp [List.filter_append]

theorem eraseAreaCol_assignAreaCell (r : GeoRow) :
    eraseAreaCol (assignAreaCell r) = eraseAreaCol r := by
  simp [eraseAreaCol, assignAreaCell, eraseCol_setCol]

theorem normalizeID_nan_or_nonempty (v : PyVal) :
    normalizeID v = PyVal.nanVal
      ∨ ∃ s, normalizeID v = PyVal.strVal s ∧ s ≠ "" := by
  unfold normalizeID
  by_cases h : stripNonDigits (pyStr (_float2int v)) = ""
  · left
    simp [h]
  · right
    exact ⟨_, by simp [h], h⟩

theorem clean_surviving_valid (df : AnnFrame) (r : CleanRow)
    (hr : r ∈ (clean_manually_annotated_parcels df).rows) :
    r.geometry.is_valid = true := by
  unfold clean_manually_annotated_parcels at hr
  simp only [List.mem_filter] at hr
  obtain ⟨hmem, hkeep⟩ := hr
  by_contra hv
  rw [Bool.not_eq_true] at hv
  have hmem' := hmem
  simp only [List.mem_map] at hmem'
  obtain ⟨a, ha, hra⟩ := hmem'
  simp at hkeep
  exact hkeep a ha (by rw [hra]; exact hv) (by rw [hra])

theorem filter_by_area_result_rows (gdf : GeoFrame) (min_area max_area : ℚ) :
    (filter_by_area gdf min_area max_area).2.rows
      = (gdf.rows.map assignAreaCell).filter
          (fun r => decide (min_area < r.geometry.area) && decide (r.geometry.area < max_area)) := by
  show ((gdf.rows.map assignAreaCell).filter
      (fun r => decide (min_area < r.geometry.area))).filter
        (fun r => decide (r.geometry.area < max_area)) = _
  rw [List.filter_filter]
  apply List.filter_congr
  intro a _
  exact Bool.and_comm _ _

/-- C1: for every input list of features, `get_valid_shapes` returns
exactly the subsequence of the input consisting of the features whose
geometry field constructs a geometry satisfying the validity predicate:
the output is `List.filter featureOk` of the input (each retained feature
unchanged, original relative order kept), and in particular a sublist of
the input. -/
theorem C1_filter_valid_exact_subsequence (features : List Feature) (verbose : Bool) :
    get_valid_shapes features verbose = features.filter featureOk
      ∧ (get_valid_shapes features verbose).Sublist features := by
  refine ⟨get_valid_shapes_eq_filter features verbose, ?_⟩
  rw [get_valid_shapes_eq_filter]
  exact List.filter_sublist features

/-- C2: the length of the retained output plus the accumulated invalid
count equals the input length — every feature is either retained or
counted invalid, never both, never neither. -/
theorem C2_length_partition (features : List Feature) (verbose : Bool) :
    (get_valid_shapes features verbose).length
        + (get_valid_shapesRun features verbose).invalid_count
      = features.length := by
  rw [get_valid_shapes_eq_filter, get_valid_shapesRun_invalid_count,
    ← List.countP_eq_length_filter]
  have h := List.length_eq_countP_add_countP featureOk (l := features)
  simpa using h.symm

/-- C3 counterexample: the value `get_valid_shapes` returns is not the
pair (valid_features, invalid_count) — two inputs with equal return
values have different invalid counts, so the return value cannot carry
the count. -/
theorem C3_counterexample :
    get_valid_shapes [badFeature] false = get_valid_shapes [] false
      ∧ (get_valid_shapesRun [badFeature] false).invalid_count
          ≠ (get_valid_shapesRun [] false).invalid_count := by
  constructor
  · rfl
  · decide

/-- C3 (amended): `get_valid_shapes` returns only the retained sequence;
the invalid count is reported through the unconditional final print
(independent of `verbose`), not through the return value. -/
theorem C3_returns_list_reports_count (features : List Feature) (verbose : Bool) :
    get_valid_shapes features verbose = (get_valid_shapesRun features verbose).valid_features
      ∧ (get_valid_shapesRun features verbose).printed.getLast?
          = some (PrintEvent.foundInvalid
              (get_valid_shapesRun features verbose).invalid_count) := by
  refine ⟨rfl, ?_⟩
  simp [get_valid_shapesRun]

/-- C4: `filter_by_area` retains a record iff its geometry's area is
strictly greater than `min_area` and strictly less than `max_area`; in
particular a record whose area equals `min_area` is excluded, and a
zero-area record is excluded whenever `min_area` is non-negative. -/
theorem C4_filter_by_area_strict_bounds (gdf : GeoFrame) (min_area max_area : ℚ) :
    (filter_by_area gdf min_area max_area).2.rows
        = (gdf.rows.map assignAreaCell).filter
            (fun r => decide (min_area < r.geometry.area) && decide (r.geometry.area < max_area))
      ∧ (∀ r, r ∈ (filter_by_area gdf min_area max_area).2.rows
            → min_area < r.geometry.area ∧ r.geometry.area < max_area)
      ∧ (∀ r, r ∈ (filter_by_area gdf min_area max_area).2.rows
            → r.geometry.area ≠ min_area)
      ∧ (∀ r, r.geometry.area = 0 → 0 ≤ min_area
            → r ∉ (filter_by_area gdf min_area max_area).2.rows) := by
  refine ⟨filter_by_area_result_rows gdf min_area max_area, ?_, ?_, ?_⟩
  · intro r hr
    rw [filter_by_area_result_rows] at hr
    simp only [List.mem_filter, Bool.and_eq_true, decide_eq_true_eq] at hr
    exact hr.2
  · intro r hr
    rw [filter_by_area_result_rows] at hr
    simp only [List.mem_filter, Bool.and_eq_true, decide_eq_true_eq] at hr
    exact ne_of_gt hr.2.1
  · intro r hz hmn hr
    rw [filter_by_area_result_rows] at hr
    simp only [List.mem_filter, Bool.and_eq_true, decide_eq_true_eq] at hr
    rw [hz] at hr
    exact absurd hr.2.1 (not_lt.mpr hmn)

/-- C4 witness: with bounds (0, 10), the retained row of area 2 indeed has
0 < area < 10 and area ≠ 0, and the zero-area row is excluded. -/
theorem C4_filter_by_area_strict_bounds_witness :
    ((0 : ℚ) < (assignAreaCell rowArea2).geometry.area
        ∧ (assignAreaCell rowArea2).geometry.area < 10)
      ∧ (assignAreaCell rowArea2).geometry.area ≠ 0
      ∧ assignAreaCell rowArea0 ∉ (filter_by_area frameC4 0 10).2.rows :=
  ⟨(C4_filter_by_area_strict_bounds frameC4 0 10).2.1 (assignAreaCell rowArea2) (by decide),
   (C4_filter_by_area_strict_bounds frameC4 0 10).2.2.1 (assignAreaCell rowArea2) (by decide),
   (C4_filter_by_area_strict_bounds frameC4 0 10).2.2.2 (assignAreaCell rowArea0)
     (by decide) (by decide)⟩

/-- C5: identifier normalization maps the float 12.0 to the string "12",
the string "ID-12a" to "12", and any identifier whose string form contains
no digit to the NaN (missing) marker rather than the empty string. -/
theorem C5_identifier_normalization :
    normalizeID (PyVal.floatVal 12) = PyVal.strVal "12"
      ∧ normalizeID (PyVal.strVal "ID-12a") = PyVal.strVal "12"
      ∧ ∀ s : String, (∀ c ∈ s.toList, c.isDigit = false)
          → normalizeID (PyVal.strVal s) = PyVal.nanVal := by
  refine ⟨by decide, by decide, ?_⟩
  intro s hs
  have hnil : s.toList.filter Char.isDigit = [] := by
    rw [List.filter_eq_nil_iff]
    intro c hc
    simp [hs c hc]
  have hstrip : stripNonDigits s = "" := by
    unfold stripNonDigits
    rw [hnil]
  simp [normalizeID, _float2int, pyStr, hstrip]

/-- C5 witness: the identifier "abc" is recoded as NaN. -/
theorem C5_identifier_normalization_witness :
    normalizeID (PyVal.strVal "abc") = PyVal.nanVal :=
  C5_identifier_normalization.2.2 "abc" (by decide)

/-- C6: a record whose geometry encoding is unreadable never aborts the
pass — it is excluded and counted while the records before and after it
are processed normally. -/
theorem C6_bad_record_never_aborts (xs ys : List Feature) (f : Feature) (verbose : Bool)
    (h : shape f.geometry = Except.error PyError.valueError) :
    get_valid_shapes (xs ++ f :: ys) verbose
        = get_valid_shapes xs verbose ++ get_valid_shapes ys verbose
      ∧ (get_valid_shapesRun (xs ++ f :: ys) verbose).invalid_count
          = ((get_valid_shapesRun xs verbose).invalid_count
              + (get_valid_shapesRun ys verbose).invalid_count) + 1 := by
  have hok : featureOk f = false := by simp [featureOk, h]
  constructor
  · simp [get_valid_shapes_eq_filter, List.filter_append, List.filter_cons, hok]
  · simp [get_valid_shapesRun_invalid_count, List.countP_append, List.countP_cons, hok]
    omega

/-- C6 witness: a good feature, an unreadable one, and another good one. -/
theorem C6_bad_record_never_aborts_witness :
    get_valid_shapes ([goodFeature] ++ badFeature :: [goodFeature]) false
        = get_valid_shapes [goodFeature] false ++ get_valid_shapes [goodFeature] false
      ∧ (get_valid_shapesRun ([goodFeature] ++ badFeature :: [goodFeature]) false).invalid_count
          = ((get_valid_shapesRun [goodFeature] false).invalid_count
              + (get_valid_shapesRun [goodFeature] false).invalid_count) + 1 :=
  C6_bad_record_never_aborts [goodFeature] [goodFeature] badFeature false rfl

/-- C7: after filtering, every surviving feature has a constructible valid
geometry, and every surviving annotated record has a valid geometry and an
identifier that is either the preserved non-empty normalized string or the
NaN (missing) marker. -/
theorem C7_surviving_invariant :
    (∀ (verbose : Bool) (features : List Feature) (f : Feature),
        f ∈ get_valid_shapes features verbose → featureOk f = true)
      ∧ (∀ (df : AnnFrame) (r : CleanRow),
          r ∈ (clean_manually_annotated_parcels df).rows
            → r.geometry.is_valid = true
              ∧ ∃ r0, r0 ∈ df.rows ∧ r.ID = normalizeID r0.ID
                  ∧ (r.ID = PyVal.nanVal ∨ ∃ s, r.ID = PyVal.strVal s ∧ s ≠ "")) := by
  constructor
  · intro verbose features f hf
    rw [get_valid_shapes_eq_filter] at hf
    exact (List.mem_filter.mp hf).2
  · intro df r hr
    refine ⟨clean_surviving_valid df r hr, ?_⟩
    have hmem : r ∈ df.rows.map cleanRow := by
      unfold clean_manually_annotated_parcels at hr
      exact (List.mem_filter.mp hr).1
    obtain ⟨r0, hr0, hcr⟩ := List.mem_map.mp hmem
    refine ⟨r0, hr0, by rw [← hcr]; rfl, ?_⟩
    rw [← hcr]
    simpa [cleanRow] using normalizeID_nan_or_nonempty r0.ID

/-- C7 witness: the surviving feature and the surviving annotated row of
the concrete fixtures satisfy the invariant. -/
theorem C7_surviving_invariant_witness :
    featureOk goodFeature = true
      ∧ ((cleanRow validAnnRow).geometry.is_valid = true
          ∧ ∃ r0, r0 ∈ sampleAnnFrame.rows ∧ (cleanRow validAnnRow).ID = normalizeID r0.ID
              ∧ ((cleanRow validAnnRow).ID = PyVal.nanVal
                  ∨ ∃ s, (cleanRow validAnnRow).ID = PyVal.strVal s ∧ s ≠ "")) :=
  ⟨C7_surviving_invariant.1 false [goodFeature] goodFeature (by decide),
   C7_surviving_invariant.2 sampleAnnFrame (cleanRow validAnnRow) (by decide)⟩

/-- C8: `get_valid_shapes` is idempotent — applied to its own output it
returns that output unchanged and counts zero additional invalid
records. -/
theorem C8_filter_valid_idempotent (features : List Feature) (vb vb2 : Bool) :
    get_valid_shapes (get_valid_shapes features vb) vb2 = get_valid_shapes features vb
      ∧ (get_valid_shapesRun (get_valid_shapes features vb) vb2).invalid_count = 0 := by
  constructor
  · simp [get_valid_shapes_eq_filter, List.filter_filter]
  · rw [get_valid_shapesRun_invalid_count, get_valid_shapes_eq_filter, List.countP_eq_zero]
    intro f hf
    have hm := List.mem_filter.mp hf
    simp [hm.2]

/-- C9 counterexample: `filter_by_area` does not leave the caller's
dataframe unchanged — on a frame without an `area` column, the frame as it
stands after the call differs from the frame before the call (the `area`
column has been added in place). -/
theorem C9_counterexample :
    (filter_by_area sampleGeoFrame 0 10).1 ≠ sampleGeoFrame := by
  decide

/-- C9 (amended): the only mutation `filter_by_area` makes to the
caller's dataframe is assigning the computed `area` column: the frame
after the call is the original with `area` cells assigned per row; erasing
the `area` column recovers the rows exactly, and no record is added,
removed, reordered, or changed in index or geometry. -/
theorem C9_mutation_only_area_column (gdf : GeoFrame) (min_area max_area : ℚ) :
    (filter_by_area gdf min_area max_area).1.rows = gdf.rows.map assignAreaCell
      ∧ (filter_by_area gdf min_area max_area).1.rows.map eraseAreaCol
          = gdf.rows.map eraseAreaCol
      ∧ (filter_by_area gdf min_area max_area).1.rows.map (fun r => r.index)
          = gdf.rows.map (fun r => r.index)
      ∧ (filter_by_area gdf min_area max_area).1.rows.map (fun r => r.geometry)
          = gdf.rows.map (fun r => r.geometry) := by
  refine ⟨rfl, ?_, ?_, ?_⟩
  · show (gdf.rows.map assignAreaCell).map eraseAreaCol = gdf.rows.map eraseAreaCol
    simp [List.map_map, Function.comp_def, eraseAreaCol_assignAreaCell]
  · show (gdf.rows.map assignAreaCell).map (fun r => r.index)
        = gdf.rows.map (fun r => r.index)
    simp [List.map_map, Function.comp_def, assignAreaCell]
  · show (gdf.rows.map assignAreaCell).map (fun r => r.geometry)
        = gdf.rows.map (fun r => r.geometry)
    simp [List.map_map, Function.comp_def, assignAreaCell]

/-- C10 counterexample: the collection returned by
`clean_manually_annotated_parcels` is not re-indexed from zero — on a
fixture whose invalid row carries index label 0, the surviving row keeps
its original label 1 instead of being renumbered to 0. -/
theorem C10_counterexample :
    (clean_manually_annotated_parcels sampleAnnFrame).rows.map (fun r => r.index) = [1]
      ∧ (clean_manually_annotated_parcels sampleAnnFrame).rows.map (fun r => r.index)
          ≠ List.range (clean_manually_annotated_parcels sampleAnnFrame).rows.length := by
  constructor
  · decide
  · decide

/-- C10 (amended): the returned collection keeps the original index labels
of the surviving rows (the drop does not re-index): its label sequence is a
sublist of the input's label sequence, and every output row is the cleaned
image of an input row with the same label. -/
theorem C10_keeps_original_labels (df : AnnFrame) :
    (((clean_manually_annotated_parcels df).rows.map (fun r => r.index)).Sublist
        (df.rows.map (fun r => r.index)))
      ∧ ∀ r, r ∈ (clean_manually_annotated_parcels df).rows
          → ∃ r0, r0 ∈ df.rows ∧ r = cleanRow r0 ∧ r.index = r0.index := by
  constructor
  · have hsub : (clean_manually_annotated_parcels df).rows.Sublist (df.rows.map cleanRow) := by
      unfold clean_manually_annotated_parcels
      exact List.filter_sublist _
    have hmap := hsub.map (fun r => r.index)
    simpa [List.map_map, Function.comp_def, cleanRow] using hmap
  · intro r hr
    have hmem : r ∈ df.rows.map cleanRow := by
      unfold clean_manually_annotated_parcels at hr
      exact (List.mem_filter.mp hr).1
    obtain ⟨r0, hr0, hcr⟩ := List.mem_map.mp hmem
    exact ⟨r0, hr0, hcr.symm, by rw [← hcr]; rfl⟩

/-- C10 amended-claim witness: the surviving row of the concrete fixture
is the cleaned image of the input row with label 1. -/
theorem C10_keeps_original_labels_witness :
    (((clean_manually_annotated_parcels sampleAnnFrame).rows.map (fun r => r.index)).Sublist
        (sampleAnnFrame.rows.map (fun r => r.index)))
      ∧ ∃ r0, r0 ∈ sampleAnnFrame.rows ∧ cleanRow validAnnRow = cleanRow r0
          ∧ (cleanRow validAnnRow).index = r0.index :=
  ⟨(C10_keeps_original_labels sampleAnnFrame).1,
   (C10_keeps_original_labels sampleAnnFrame).2 (cleanRow validAnnRow) (by decide)⟩
